import Mathlib

/-!
Shallow embedding of the Smart Village backend (`backend/app.py`):
the SQLAlchemy tables touched by the event-publishing handlers, the
Flask route handlers that mutate them, and the SocketIO chat handlers.

Conventions of the embedding:
* Python `None`-able JSON/ORM values are `Option _`; Python dict payloads
  are association lists of `PyVal`.
* `datetime` values are abstracted as `Nat` ticks; `isoformat()` is
  abstracted as `toString` of the tick.  The server clock
  (`datetime.utcnow`) is the `now` field of the database state.
* Auto-increment primary keys are modelled as `max existing id + 1`.
* Each mutating handler takes a `commitOk : Bool` describing whether
  `db.session.commit()` succeeds; a failing commit raises, so the
  handler produces no emits and leaves the durable state unchanged
  (HTTP status 500 stands for the propagated exception).
* `socketio.emit(..., broadcast=True)` is `Target.broadcast`,
  `socketio.emit(..., room=r)` is `Target.room r`, and a bare `emit`
  inside a SocketIO handler (delivered to the originating connection)
  is `Target.origin`.
Only the columns actually read or written by the modelled handlers are
carried in the row structures.
-/

/-- A Python value appearing in an emitted payload dict. -/
inductive PyVal where
  | none
  | str (s : String)
  | int (n : Int)
deriving DecidableEq

/-- A Python dict payload, as an association list. -/
abbrev Payload := List (String × PyVal)

/-- Dictionary lookup on a payload. -/
def Payload.get (p : Payload) (k : String) : Option PyVal :=
  (p.find? (fun kv => kv.fst == k)).map Prod.snd

/-- Delivery target of a `socketio.emit` call. -/
inductive Target where
  | broadcast
  | room (name : String)
  | origin
deriving DecidableEq

/-- One `emit` call: event name, payload dict, delivery target. -/
structure Emit where
  event : String
  payload : Payload
  target : Target
deriving DecidableEq

/-- `users` table row (columns used by the modelled handlers). -/
structure User where
  user_id : Int
  name : String
  avatar : Option String
deriving DecidableEq

/-- `announcements` table row. -/
structure Announcement where
  announcement_id : Int
  title : String
  content : String
  published_date : Nat
  author_id : Option Int
  tag : Option String
  tag_color : String
  tag_bg : String
deriving DecidableEq

/-- `repair_requests` table row. -/
structure RepairRequest where
  request_id : Int
  user_id : Option Int
  title : String
  category : Option String
  description : String
  submitted_date : Nat
  status : String
  image_paths : Option String
deriving DecidableEq

/-- `booking_requests` table row. -/
structure BookingRequest where
  booking_id : Int
  user_id : Option Int
  location : String
  date : Nat
  start_time : Nat
  end_time : Nat
  purpose : Option String
  attendee_count : Option Int
  status : String
deriving DecidableEq

/-- `bills` table row. -/
structure Bill where
  bill_id : Int
  item_name : String
  amount : Int
  due_date : Nat
  recipient_id : String
  issued_by_user_id : Option Int
  status : String
deriving DecidableEq

/-- `payments` table row. -/
structure Payment where
  payment_id : Int
  user_id : Option Int
  bill_id : Option Int
  amount : Int
  payment_method : Option String
  payment_date : Nat
  status : Option String
  slip_path : Option String
deriving DecidableEq

/-- `calendar_events` table row. -/
structure CalendarEvent where
  event_id : Int
  event_name : String
  event_date : Nat
  location : Option String
  description : Option String
deriving DecidableEq

/-- `documents` table row. -/
structure Document where
  document_id : Int
  document_name : String
  file_path : String
  uploaded_by_user_id : Option Int
  upload_date : Nat
  category : Option String
deriving DecidableEq

/-- `chat_messages` table row. -/
structure ChatMessage where
  message_id : Int
  sender_id : Option Int
  content : String
  timestamp : Nat
  room_name : String
deriving DecidableEq

/-- `security_visitors` table row. -/
structure SecurityVisitor where
  visitor_id : Int
  user_id : Option Int
  name : String
  phone : Option String
  visit_date : Nat
  visit_time : Nat
  purpose : Option String
deriving DecidableEq

/-- `security_incidents` table row. -/
structure SecurityIncident where
  incident_id : Int
  user_id : Option Int
  description : String
  reported_date : Nat
  evidence_paths : Option String
deriving DecidableEq

/-- `voting_results` table row. -/
structure VotingResult where
  result_id : Int
  poll_id : Int
  option_id : Int
  user_id : Int
deriving DecidableEq

/-- The durable database state (plus the server clock `now` standing for
`datetime.utcnow()`), restricted to the tables the modelled handlers touch. -/
structure DB where
  now : Nat
  users : List User
  announcements : List Announcement
  repair_requests : List RepairRequest
  booking_requests : List BookingRequest
  bills : List Bill
  payments : List Payment
  calendar_events : List CalendarEvent
  documents : List Document
  chat_messages : List ChatMessage
  security_visitors : List SecurityVisitor
  security_incidents : List SecurityIncident
  voting_results : List VotingResult
deriving DecidableEq

/-- Result of a Flask route handler: HTTP status, resulting durable state,
and the `socketio.emit` calls it performed, in order. -/
structure HandlerResult where
  status : Nat
  db : DB
  emits : List Emit
deriving DecidableEq

/-- Default of the `ChatMessages.room_name` column
(`self.db.Column(..., default='general')`). -/
def chatMessages_room_name_default : String := "general"

/-- Python truthiness of an optional integer (`None` and `0` are falsy). -/
def truthyInt : Option Int → Bool
  | Option.none => false
  | some n => n != 0

/-- Python truthiness of an optional string (`None` and `''` are falsy). -/
def truthyStr : Option String → Bool
  | Option.none => false
  | some s => s != ""

/-- Next auto-increment primary key for a table with the given ids. -/
def nextId (ids : List Int) : Int := ids.foldr max 0 + 1

/-- `data.get(k, current)` for updating a nullable column: keep the old
value when the key is absent. -/
def updOpt (new : Option α) (old : Option α) : Option α :=
  match new with
  | some v => some v
  | Option.none => old

/-- Rewrite every row matching `p` with `f` (the in-place ORM update of a
fetched row, as seen after commit). -/
def updateWhere (p : α → Bool) (f : α → α) (l : List α) : List α :=
  l.map (fun x => if p x then f x else x)

/-- Commit step shared by all mutating handlers: if `commit()` succeeds the
handler returns its success result; otherwise the exception propagates
(status 500), the durable state is unchanged, and nothing is emitted. -/
def withCommit (commitOk : Bool) (success : HandlerResult) (db : DB) : HandlerResult :=
  if commitOk then success else ⟨500, db, []⟩

/-- Embed an optional string into a payload value. -/
def pyOfOptStr : Option String → PyVal
  | some s => PyVal.str s
  | Option.none => PyVal.none

/-- Embed an optional integer into a payload value. -/
def pyOfOptInt : Option Int → PyVal
  | some n => PyVal.int n
  | Option.none => PyVal.none

/-- Python `f'user_{uid}'` where `uid` is a nullable column
(`None` renders as the string `None`). -/
def pyFormatUserRoom : Option Int → String
  | some n => "user_" ++ toString n
  | Option.none => "user_None"

/-- `self.Users.query.get(uid)`: primary-key lookup. -/
def queryGetUser (users : List User) (uid : Int) : Option User :=
  users.find? (fun u => u.user_id == uid)

/-- An ORM relationship to `Users` through a nullable foreign key:
`None` key or dangling key resolves to no row. -/
def relUser (users : List User) (fk : Option Int) : Option User :=
  fk.bind (queryGetUser users)

/-- Python `name[0].upper()`. -/
def firstCharUpper (s : String) : String :=
  String.singleton s.front.toUpper

/-- The sender display name/avatar resolution performed (textually twice)
in `get_chat_messages` and `handle_send_message`:
`sender_name = sender_user.name if sender_user else 'Unknown User'`;
`sender_avatar = sender_user.avatar if sender_user else
(sender_name[0].upper() if sender_name else '?')`. -/
def resolveSenderDisplay (sender_user : Option User) : String × PyVal :=
  let sender_name :=
    match sender_user with
    | some u => u.name
    | Option.none => "Unknown User"
  let sender_avatar :=
    match sender_user with
    | some u => pyOfOptStr u.avatar
    | Option.none =>
        if sender_name != "" then PyVal.str (firstCharUpper sender_name)
        else PyVal.str "?"
  (sender_name, sender_avatar)

/-- The `tag_colors` dict lookup with fallback
`{'color': '#666', 'bg': '#eee'}`, used by the announcement handlers. -/
def tagColors (tag : Option String) : String × String :=
  match tag with
  | some t =>
      if t = "สำคัญ" then ("#1976d2", "#e3f2fd")
      else if t = "กิจกรรม" then ("#2e7d32", "#e8f5e8")
      else if t = "แจ้งเตือน" then ("#856404", "#fff3cd")
      else ("#666", "#eee")
  | Option.none => ("#666", "#eee")

/-- JSON body of `POST /announcements`. -/
structure AnnouncementData where
  title : String
  content : String
  published_date : Option Nat
  author_id : Option Int
  tag : Option String
deriving DecidableEq

/-- `POST /announcements` (`manage_announcements`, POST branch). -/
def manage_announcements_post (db : DB) (data : AnnouncementData) (commitOk : Bool) :
    HandlerResult :=
  let tag_info := tagColors data.tag
  let new_announcement : Announcement :=
    { announcement_id := nextId (db.announcements.map (·.announcement_id))
      title := data.title
      content := data.content
      published_date := data.published_date.getD db.now
      author_id := data.author_id
      tag := data.tag
      tag_color := tag_info.1
      tag_bg := tag_info.2 }
  let db' := { db with announcements := db.announcements ++ [new_announcement] }
  let author_name :=
    match relUser db'.users new_announcement.author_id with
    | some u => u.name
    | Option.none => "Unknown Author"
  withCommit commitOk
    ⟨201, db',
      [⟨"new_announcement",
        [("announcement_id", PyVal.int new_announcement.announcement_id),
         ("title", PyVal.str new_announcement.title),
         ("content", PyVal.str new_announcement.content),
         ("published_date", PyVal.str (toString new_announcement.published_date)),
         ("author_id", pyOfOptInt new_announcement.author_id),
         ("author_name", PyVal.str author_name),
         ("tag", pyOfOptStr new_announcement.tag),
         ("tag_color", PyVal.str new_announcement.tag_color),
         ("tag_bg", PyVal.str new_announcement.tag_bg)],
        Target.broadcast⟩]⟩ db

/-- JSON body of `PUT /announcements/<id>`. -/
structure AnnouncementPutData where
  title : Option String
  content : Option String
  published_date : Option Nat
  author_id : Option Int
  tag : Option String
deriving DecidableEq

/-- `PUT /announcements/<id>` (`handle_single_announcement`, PUT branch). -/
def handle_single_announcement_put (db : DB) (announcement_id : Int)
    (data : AnnouncementPutData) (commitOk : Bool) : HandlerResult :=
  match db.announcements.find? (fun a => a.announcement_id == announcement_id) with
  | Option.none => ⟨404, db, []⟩
  | some announcement =>
      let tag' := updOpt data.tag announcement.tag
      let tag_info := tagColors tag'
      let announcement' : Announcement :=
        { announcement with
          title := data.title.getD announcement.title
          content := data.content.getD announcement.content
          published_date := data.published_date.getD announcement.published_date
          author_id := updOpt data.author_id announcement.author_id
          tag := tag'
          tag_color := tag_info.1
          tag_bg := tag_info.2 }
      let db' :=
        { db with
          announcements :=
            updateWhere (fun a => a.announcement_id == announcement_id)
              (fun _ => announcement') db.announcements }
      let author_name :=
        match relUser db'.users announcement'.author_id with
        | some u => u.name
        | Option.none => "Unknown Author"
      withCommit commitOk
        ⟨200, db',
          [⟨"announcement_updated",
            [("announcement_id", PyVal.int announcement'.announcement_id),
             ("title", PyVal.str announcement'.title),
             ("content", PyVal.str announcement'.content),
             ("published_date", PyVal.str (toString announcement'.published_date)),
             ("author_id", pyOfOptInt announcement'.author_id),
             ("author_name", PyVal.str author_name),
             ("tag", pyOfOptStr announcement'.tag),
             ("tag_color", PyVal.str announcement'.tag_color),
             ("tag_bg", PyVal.str announcement'.tag_bg)],
            Target.broadcast⟩]⟩ db

/-- `DELETE /announcements/<id>` (`handle_single_announcement`, DELETE branch). -/
def handle_single_announcement_delete (db : DB) (announcement_id : Int)
    (commitOk : Bool) : HandlerResult :=
  match db.announcements.find? (fun a => a.announcement_id == announcement_id) with
  | Option.none => ⟨404, db, []⟩
  | some _ =>
      let db' :=
        { db with
          announcements :=
            db.announcements.filter (fun a => !(a.announcement_id == announcement_id)) }
      withCommit commitOk
        ⟨204, db',
          [⟨"announcement_deleted",
            [("announcement_id", PyVal.int announcement_id)],
            Target.broadcast⟩]⟩ db

/-- JSON body of `POST /repair-requests`. -/
structure RepairData where
  user_id : Option Int
  title : String
  category : Option String
  description : String
  image_paths : Option String
deriving DecidableEq

/-- `POST /repair-requests` (`manage_repair_requests`, POST branch). -/
def manage_repair_requests_post (db : DB) (data : RepairData) (commitOk : Bool) :
    HandlerResult :=
  let new_request : RepairRequest :=
    { request_id := nextId (db.repair_requests.map (·.request_id))
      user_id := data.user_id
      title := data.title
      category := data.category
      description := data.description
      submitted_date := db.now
      status := "pending"
      image_paths := data.image_paths }
  let db' := { db with repair_requests := db.repair_requests ++ [new_request] }
  let user_name :=
    match relUser db'.users new_request.user_id with
    | some u => u.name
    | Option.none => "Unknown User"
  withCommit commitOk
    ⟨201, db',
      [⟨"new_repair_request",
        [("request_id", PyVal.int new_request.request_id),
         ("user_id", pyOfOptInt new_request.user_id),
         ("user_name", PyVal.str user_name),
         ("title", PyVal.str new_request.title),
         ("status", PyVal.str new_request.status),
         ("submitted_date", PyVal.str (toString new_request.submitted_date))],
        Target.room "admins"⟩]⟩ db

/-- JSON body of `PUT /repair-requests/<id>`. -/
structure RepairPutData where
  title : Option String
  category : Option String
  description : Option String
  status : Option String
  image_paths : Option String
deriving DecidableEq

/-- `PUT /repair-requests/<id>` (`handle_single_repair_request`, PUT branch). -/
def handle_single_repair_request_put (db : DB) (request_id : Int)
    (data : RepairPutData) (commitOk : Bool) : HandlerResult :=
  match db.repair_requests.find? (fun r => r.request_id == request_id) with
  | Option.none => ⟨404, db, []⟩
  | some req =>
      let req' : RepairRequest :=
        { req with
          title := data.title.getD req.title
          category := updOpt data.category req.category
          description := data.description.getD req.description
          status := data.status.getD req.status
          image_paths := updOpt data.image_paths req.image_paths }
      let db' :=
        { db with
          repair_requests :=
            updateWhere (fun r => r.request_id == request_id) (fun _ => req')
              db.repair_requests }
      withCommit commitOk
        ⟨200, db',
          [⟨"repair_status_updated",
            [("request_id", PyVal.int req'.request_id),
             ("user_id", pyOfOptInt req'.user_id),
             ("status", PyVal.str req'.status),
             ("title", PyVal.str req'.title)],
            Target.room (pyFormatUserRoom req'.user_id)⟩]⟩ db

/-- JSON body of `POST /booking-requests`. -/
structure BookingData where
  user_id : Option Int
  location : String
  date : Nat
  start_time : Nat
  end_time : Nat
  purpose : Option String
  attendee_count : Option Int
deriving DecidableEq

/-- `POST /booking-requests` (`manage_booking_requests`, POST branch). -/
def manage_booking_requests_post (db : DB) (data : BookingData) (commitOk : Bool) :
    HandlerResult :=
  let new_booking : BookingRequest :=
    { booking_id := nextId (db.booking_requests.map (·.booking_id))
      user_id := data.user_id
      location := data.location
      date := data.date
      start_time := data.start_time
      end_time := data.end_time
      purpose := data.purpose
      attendee_count := data.attendee_count
      status := "pending" }
  let db' := { db with booking_requests := db.booking_requests ++ [new_booking] }
  let user_name :=
    match relUser db'.users new_booking.user_id with
    | some u => u.name
    | Option.none => "Unknown User"
  withCommit commitOk
    ⟨201, db',
      [⟨"new_booking_request",
        [("booking_id", PyVal.int new_booking.booking_id),
         ("user_id", pyOfOptInt new_booking.user_id),
         ("user_name", PyVal.str user_name),
         ("location", PyVal.str new_booking.location),
         ("status", PyVal.str new_booking.status)],
        Target.room "admins"⟩]⟩ db

/-- JSON body of `PUT /booking-requests/<id>`. -/
structure BookingPutData where
  location : Option String
  date : Option Nat
  start_time : Option Nat
  end_time : Option Nat
  purpose : Option String
  attendee_count : Option Int
  status : Option String
deriving DecidableEq

/-- `PUT /booking-requests/<id>` (`handle_single_booking_request`, PUT branch). -/
def handle_single_booking_request_put (db : DB) (booking_id : Int)
    (data : BookingPutData) (commitOk : Bool) : HandlerResult :=
  match db.booking_requests.find? (fun b => b.booking_id == booking_id) with
  | Option.none => ⟨404, db, []⟩
  | some booking =>
      let booking' : BookingRequest :=
        { booking with
          location := data.location.getD booking.location
          date := data.date.getD booking.date
          start_time := data.start_time.getD booking.start_time
          end_time := data.end_time.getD booking.end_time
          purpose := updOpt data.purpose booking.purpose
          attendee_count := updOpt data.attendee_count booking.attendee_count
          status := data.status.getD booking.status }
      let db' :=
        { db with
          booking_requests :=
            updateWhere (fun b => b.booking_id == booking_id) (fun _ => booking')
              db.booking_requests }
      withCommit commitOk
        ⟨200, db',
          [⟨"booking_status_updated",
            [("booking_id", PyVal.int booking'.booking_id),
             ("user_id", pyOfOptInt booking'.user_id),
             ("status", PyVal.str booking'.status),
             ("location", PyVal.str booking'.location)],
            Target.room (pyFormatUserRoom booking'.user_id)⟩]⟩ db

/-- JSON body of `POST /bills`. -/
structure BillData where
  item_name : String
  amount : Int
  due_date : Nat
  recipient_id : Option String
  issued_by_user_id : Option Int
deriving DecidableEq

/-- `POST /bills` (`manage_bills`, POST branch). -/
def manage_bills_post (db : DB) (data : BillData) (commitOk : Bool) : HandlerResult :=
  let new_bill : Bill :=
    { bill_id := nextId (db.bills.map (·.bill_id))
      item_name := data.item_name
      amount := data.amount
      due_date := data.due_date
      recipient_id := data.recipient_id.getD "all"
      issued_by_user_id := data.issued_by_user_id
      status := "unpaid" }
  let db' := { db with bills := db.bills ++ [new_bill] }
  withCommit commitOk
    ⟨201, db',
      [⟨"new_bill_created",
        [("bill_id", PyVal.int new_bill.bill_id),
         ("item_name", PyVal.str new_bill.item_name),
         ("amount", PyVal.str (toString new_bill.amount)),
         ("due_date", PyVal.str (toString new_bill.due_date)),
         ("recipient_id", PyVal.str new_bill.recipient_id),
         ("status", PyVal.str new_bill.status)],
        Target.broadcast⟩]⟩ db

/-- JSON body of `PUT /bills/<id>`. -/
structure BillPutData where
  item_name : Option String
  amount : Option Int
  due_date : Option Nat
  recipient_id : Option String
  status : Option String
deriving DecidableEq

/-- `PUT /bills/<id>` (`handle_single_bill`, PUT branch). -/
def handle_single_bill_put (db : DB) (bill_id : Int) (data : BillPutData)
    (commitOk : Bool) : HandlerResult :=
  match db.bills.find? (fun b => b.bill_id == bill_id) with
  | Option.none => ⟨404, db, []⟩
  | some bill =>
      let bill' : Bill :=
        { bill with
          item_name := data.item_name.getD bill.item_name
          amount := data.amount.getD bill.amount
          due_date := data.due_date.getD bill.due_date
          recipient_id := data.recipient_id.getD bill.recipient_id
          status := data.status.getD bill.status }
      let db' :=
        { db with
          bills := updateWhere (fun b => b.bill_id == bill_id) (fun _ => bill') db.bills }
      withCommit commitOk
        ⟨200, db',
          [⟨"bill_updated",
            [("bill_id", PyVal.int bill'.bill_id),
             ("item_name", PyVal.str bill'.item_name),
             ("amount", PyVal.str (toString bill'.amount)),
             ("status", PyVal.str bill'.status)],
            Target.broadcast⟩]⟩ db

/-- `DELETE /bills/<id>` (`handle_single_bill`, DELETE branch). -/
def handle_single_bill_delete (db : DB) (bill_id : Int) (commitOk : Bool) :
    HandlerResult :=
  match db.bills.find? (fun b => b.bill_id == bill_id) with
  | Option.none => ⟨404, db, []⟩
  | some bill =>
      let bill_name := bill.item_name
      let db' := { db with bills := db.bills.filter (fun b => !(b.bill_id == bill_id)) }
      withCommit commitOk
        ⟨204, db',
          [⟨"bill_deleted",
            [("bill_id", PyVal.int bill_id),
             ("item_name", PyVal.str bill_name)],
            Target.broadcast⟩]⟩ db

/-- JSON body of `POST /payments`. -/
structure PaymentData where
  user_id : Option Int
  bill_id : Option Int
  amount : Int
  payment_method : Option String
  status : Option String
  slip_path : Option String
deriving DecidableEq

/-- `POST /payments` (`manage_payments`, POST branch). -/
def manage_payments_post (db : DB) (data : PaymentData) (commitOk : Bool) :
    HandlerResult :=
  let new_payment : Payment :=
    { payment_id := nextId (db.payments.map (·.payment_id))
      user_id := data.user_id
      bill_id := data.bill_id
      amount := data.amount
      payment_method := data.payment_method
      payment_date := db.now
      status := some (data.status.getD "pending")
      slip_path := data.slip_path }
  let db' := { db with payments := db.payments ++ [new_payment] }
  let user_name :=
    match relUser db'.users new_payment.user_id with
    | some u => u.name
    | Option.none => "Unknown User"
  withCommit commitOk
    ⟨201, db',
      [⟨"new_payment_receipt",
        [("payment_id", PyVal.int new_payment.payment_id),
         ("user_id", pyOfOptInt new_payment.user_id),
         ("user_name", PyVal.str user_name),
         ("amount", PyVal.str (toString new_payment.amount)),
         ("status", pyOfOptStr new_payment.status),
         ("bill_id", pyOfOptInt new_payment.bill_id)],
        Target.room "admins"⟩]⟩ db

/-- The `payment.bill` ORM relationship: nullable `bill_id` foreign key. -/
def relBill (bills : List Bill) (fk : Option Int) : Option Bill :=
  fk.bind (fun i => bills.find? (fun b => b.bill_id == i))

/-- JSON body of `PUT /payments/approve/<id>`. -/
structure ApprovePaymentData where
  status : Option String
deriving DecidableEq

/-- `PUT /payments/approve/<id>` (`approve_payment`). -/
def approve_payment (db : DB) (payment_id : Int) (data : ApprovePaymentData)
    (commitOk : Bool) : HandlerResult :=
  match db.payments.find? (fun p => p.payment_id == payment_id) with
  | Option.none => ⟨404, db, []⟩
  | some payment =>
      let new_status := data.status.getD "paid"
      if !(new_status == "paid" || new_status == "rejected") then
        ⟨400, db, []⟩
      else
        let payment' : Payment := { payment with status := some new_status }
        let bills' :=
          match relBill db.bills payment.bill_id with
          | some bill =>
              updateWhere (fun b => b.bill_id == bill.bill_id)
                (fun b => { b with status := new_status }) db.bills
          | Option.none => db.bills
        let db' :=
          { db with
            payments :=
              updateWhere (fun p => p.payment_id == payment_id) (fun _ => payment')
                db.payments
            bills := bills' }
        withCommit commitOk
          ⟨200, db',
            [⟨"payment_approved",
              [("payment_id", PyVal.int payment'.payment_id),
               ("user_id", pyOfOptInt payment'.user_id),
               ("bill_id", pyOfOptInt payment'.bill_id),
               ("status", pyOfOptStr payment'.status)],
              Target.broadcast⟩]⟩ db

/-- JSON body of `POST /calendar-events`. -/
structure CalendarData where
  event_name : String
  event_date : Nat
  location : Option String
  description : Option String
deriving DecidableEq

/-- `POST /calendar-events` (`manage_calendar_events`, POST branch). -/
def manage_calendar_events_post (db : DB) (data : CalendarData) (commitOk : Bool) :
    HandlerResult :=
  let new_event : CalendarEvent :=
    { event_id := nextId (db.calendar_events.map (·.event_id))
      event_name := data.event_name
      event_date := data.event_date
      location := data.location
      description := data.description }
  let db' := { db with calendar_events := db.calendar_events ++ [new_event] }
  withCommit commitOk
    ⟨201, db',
      [⟨"new_calendar_event",
        [("event_id", PyVal.int new_event.event_id),
         ("event_name", PyVal.str new_event.event_name),
         ("event_date", PyVal.str (toString new_event.event_date)),
         ("location", pyOfOptStr new_event.location)],
        Target.broadcast⟩]⟩ db

/-- JSON body of `POST /security-visitors`. -/
structure VisitorData where
  user_id : Option Int
  name : String
  phone : Option String
  visit_date : Nat
  visit_time : Nat
  purpose : Option String
deriving DecidableEq

/-- `POST /security-visitors` (`manage_security_visitors`, POST branch). -/
def manage_security_visitors_post (db : DB) (data : VisitorData) (commitOk : Bool) :
    HandlerResult :=
  let new_visitor : SecurityVisitor :=
    { visitor_id := nextId (db.security_visitors.map (·.visitor_id))
      user_id := data.user_id
      name := data.name
      phone := data.phone
      visit_date := data.visit_date
      visit_time := data.visit_time
      purpose := data.purpose }
  let db' := { db with security_visitors := db.security_visitors ++ [new_visitor] }
  let user_name :=
    match relUser db'.users new_visitor.user_id with
    | some u => u.name
    | Option.none => "Unknown User"
  withCommit commitOk
    ⟨201, db',
      [⟨"new_visitor_registered",
        [("visitor_id", PyVal.int new_visitor.visitor_id),
         ("name", PyVal.str new_visitor.name),
         ("visit_date", PyVal.str (toString new_visitor.visit_date)),
         ("user_id", pyOfOptInt new_visitor.user_id),
         ("user_name", PyVal.str user_name)],
        Target.room "admins"⟩]⟩ db

/-- JSON body of `POST /security-incidents`. -/
structure IncidentData where
  user_id : Option Int
  description : String
  evidence_paths : Option String
deriving DecidableEq

/-- `POST /security-incidents` (`manage_security_incidents`, POST branch). -/
def manage_security_incidents_post (db : DB) (data : IncidentData) (commitOk : Bool) :
    HandlerResult :=
  let new_incident : SecurityIncident :=
    { incident_id := nextId (db.security_incidents.map (·.incident_id))
      user_id := data.user_id
      description := data.description
      reported_date := db.now
      evidence_paths := data.evidence_paths }
  let db' := { db with security_incidents := db.security_incidents ++ [new_incident] }
  let user_name :=
    match relUser db'.users new_incident.user_id with
    | some u => u.name
    | Option.none => "Unknown User"
  withCommit commitOk
    ⟨201, db',
      [⟨"new_incident_reported",
        [("incident_id", PyVal.int new_incident.incident_id),
         ("user_id", pyOfOptInt new_incident.user_id),
         ("user_name", PyVal.str user_name),
         ("description", PyVal.str new_incident.description),
         ("reported_date", PyVal.str (toString new_incident.reported_date))],
        Target.room "admins"⟩]⟩ db

/-- JSON body of `POST /voting-results`. -/
structure VoteData where
  poll_id : Int
  option_id : Int
  user_id : Int
deriving DecidableEq

/-- `POST /voting-results` (`manage_voting_results`, POST branch): rejects a
duplicate vote of the same user in the same poll with 409 before writing;
performs no `socketio.emit` on any path. -/
def manage_voting_results_post (db : DB) (data : VoteData) (commitOk : Bool) :
    HandlerResult :=
  match db.voting_results.find?
      (fun r => r.poll_id == data.poll_id && r.user_id == data.user_id) with
  | some _ => ⟨409, db, []⟩
  | Option.none =>
      let new_result : VotingResult :=
        { result_id := nextId (db.voting_results.map (·.result_id))
          poll_id := data.poll_id
          option_id := data.option_id
          user_id := data.user_id }
      let db' := { db with voting_results := db.voting_results ++ [new_result] }
      withCommit commitOk ⟨201, db', []⟩ db

/-- Payload of the SocketIO `send_message` event. -/
structure SendMessageData where
  sender_id : Option Int
  content : Option String
  room_name : Option String
deriving DecidableEq

/-- SocketIO `send_message` handler (`handle_send_message`).  Returns the
resulting durable state and the `emit` calls.  Validation failure and a
failing commit both emit an `error` event to the originating connection
only; on success a single `receive_message` event goes to the room. -/
def handle_send_message (db : DB) (data : SendMessageData) (commitOk : Bool) :
    DB × List Emit :=
  let sender_id := data.sender_id
  let content := data.content
  let room_name := data.room_name.getD "general_chat"
  if !truthyInt sender_id || !truthyStr content then
    (db, [⟨"error", [("message", PyVal.str "Missing sender_id or content")],
           Target.origin⟩])
  else if commitOk then
    let new_message : ChatMessage :=
      { message_id := nextId (db.chat_messages.map (·.message_id))
        sender_id := sender_id
        content := content.getD ""
        timestamp := db.now
        room_name := room_name }
    let db' := { db with chat_messages := db.chat_messages ++ [new_message] }
    let sender_user := queryGetUser db'.users (sender_id.getD 0)
    let sender_name :=
      match sender_user with
      | some u => u.name
      | Option.none => "Unknown User"
    let sender_avatar :=
      match sender_user with
      | some u => pyOfOptStr u.avatar
      | Option.none =>
          if sender_name != "" then PyVal.str (firstCharUpper sender_name)
          else PyVal.str "?"
    let message_payload : Payload :=
      [("message_id", PyVal.int new_message.message_id),
       ("sender_id", pyOfOptInt new_message.sender_id),
       ("sender_name", PyVal.str sender_name),
       ("sender_avatar", sender_avatar),
       ("content", PyVal.str new_message.content),
       ("timestamp", PyVal.str (toString new_message.timestamp)),
       ("room_name", PyVal.str new_message.room_name)]
    (db', [⟨"receive_message", message_payload, Target.room room_name⟩])
  else
    (db, [⟨"error", [("message", PyVal.str "Failed to send message")],
           Target.origin⟩])

/-- The comparison behind `order_by(self.ChatMessages.timestamp.asc())`. -/
def tsLe (a b : ChatMessage) : Prop := a.timestamp ≤ b.timestamp

instance : DecidableRel tsLe := fun a b => Nat.decLe a.timestamp b.timestamp

instance : IsTotal ChatMessage tsLe := ⟨fun a b => Nat.le_total a.timestamp b.timestamp⟩

instance : IsTrans ChatMessage tsLe := ⟨fun _ _ _ => Nat.le_trans⟩

/-- The rows scanned by `GET /chat-messages`:
`self.ChatMessages.query.order_by(self.ChatMessages.timestamp.asc()).all()`. -/
def chatHistoryRows (db : DB) : List ChatMessage :=
  List.insertionSort tsLe db.chat_messages

/-- Enrichment of one history row with the resolved sender display
name/avatar (loop body of `get_chat_messages`; `msg.sender` is the ORM
relationship through the nullable `sender_id`). -/
def enrichMessage (users : List User) (msg : ChatMessage) : Payload :=
  let sender_user := relUser users msg.sender_id
  let sender_name :=
    match sender_user with
    | some u => u.name
    | Option.none => "Unknown User"
  let sender_avatar :=
    match sender_user with
    | some u => pyOfOptStr u.avatar
    | Option.none =>
        if sender_name != "" then PyVal.str (firstCharUpper sender_name)
        else PyVal.str "?"
  [("message_id", PyVal.int msg.message_id),
   ("sender_id", pyOfOptInt msg.sender_id),
   ("sender_name", PyVal.str sender_name),
   ("sender_avatar", sender_avatar),
   ("content", PyVal.str msg.content),
   ("timestamp", PyVal.str (toString msg.timestamp)),
   ("room_name", PyVal.str msg.room_name)]

/-- `GET /chat-messages` (`get_chat_messages`): all chat messages, ordered by
timestamp ascending, enriched with sender display data.  The route takes no
room parameter and applies no filter. -/
def get_chat_messages (db : DB) : List Payload :=
  (chatHistoryRows db).map (enrichMessage db.users)

/-- Loop body of the `GET /announcements` branch of `manage_announcements`:
one serialized announcement with the resolved author name. -/
def announcementRow (users : List User) (ann : Announcement) : Payload :=
  [("announcement_id", PyVal.int ann.announcement_id),
   ("title", PyVal.str ann.title),
   ("content", PyVal.str ann.content),
   ("published_date", PyVal.str (toString ann.published_date)),
   ("author_id", pyOfOptInt ann.author_id),
   ("author_name", PyVal.str (match relUser users ann.author_id with
      | some u => u.name
      | Option.none => "Unknown Author")),
   ("tag", pyOfOptStr ann.tag),
   ("tag_color", PyVal.str ann.tag_color),
   ("tag_bg", PyVal.str ann.tag_bg)]

/-- The comparison behind `order_by(self.Announcements.published_date.desc())`. -/
def pubDateDesc (a b : Announcement) : Prop := b.published_date ≤ a.published_date

instance : DecidableRel pubDateDesc := fun a b => Nat.decLe b.published_date a.published_date

/-- `GET /announcements` (`manage_announcements`, GET branch). -/
def manage_announcements_get (db : DB) : List Payload :=
  (List.insertionSort pubDateDesc db.announcements).map (announcementRow db.users)

/-- Loop body of the `GET /repair-requests` branch of
`manage_repair_requests`. -/
def repairRow (users : List User) (req : RepairRequest) : Payload :=
  [("request_id", PyVal.int req.request_id),
   ("user_id", pyOfOptInt req.user_id),
   ("user_name", PyVal.str (match relUser users req.user_id with
      | some u => u.name
      | Option.none => "Unknown User")),
   ("title", PyVal.str req.title),
   ("category", pyOfOptStr req.category),
   ("description", PyVal.str req.description),
   ("status", PyVal.str req.status),
   ("submitted_date", PyVal.str (toString req.submitted_date)),
   ("image_paths", pyOfOptStr req.image_paths)]

/-- `GET /repair-requests` (`manage_repair_requests`, GET branch). -/
def manage_repair_requests_get (db : DB) : List Payload :=
  db.repair_requests.map (repairRow db.users)

/-- Loop body of the `GET /booking-requests` branch of
`manage_booking_requests`. -/
def bookingRow (users : List User) (booking : BookingRequest) : Payload :=
  [("booking_id", PyVal.int booking.booking_id),
   ("user_id", pyOfOptInt booking.user_id),
   ("user_name", PyVal.str (match relUser users booking.user_id with
      | some u => u.name
      | Option.none => "Unknown User")),
   ("location", PyVal.str booking.location),
   ("date", PyVal.str (toString booking.date)),
   ("start_time", PyVal.str (toString booking.start_time)),
   ("end_time", PyVal.str (toString booking.end_time)),
   ("purpose", pyOfOptStr booking.purpose),
   ("attendee_count", pyOfOptInt booking.attendee_count),
   ("status", PyVal.str booking.status)]

/-- `GET /booking-requests` (`manage_booking_requests`, GET branch). -/
def manage_booking_requests_get (db : DB) : List Payload :=
  db.booking_requests.map (bookingRow db.users)

/-- Loop body of the `GET /bills` branch of `manage_bills`.  Note the
fallback placeholder here is the literal Unknown, not Unknown User
(`issued_by_user.name if issued_by_user else "Unknown"`). -/
def billRow (users : List User) (bill : Bill) : Payload :=
  [("bill_id", PyVal.int bill.bill_id),
   ("item_name", PyVal.str bill.item_name),
   ("amount", PyVal.str (toString bill.amount)),
   ("due_date", PyVal.str (toString bill.due_date)),
   ("recipient_id", PyVal.str bill.recipient_id),
   ("issued_by_user_id", pyOfOptInt bill.issued_by_user_id),
   ("issued_by_user_name", PyVal.str (match relUser users bill.issued_by_user_id with
      | some u => u.name
      | Option.none => "Unknown")),
   ("status", PyVal.str bill.status)]

/-- `GET /bills` (`manage_bills`, GET branch). -/
def manage_bills_get (db : DB) : List Payload :=
  db.bills.map (billRow db.users)

/-- Loop body of the `GET /payments` branch of `manage_payments`
(`payment.bill` is the ORM relationship through the nullable bill_id). -/
def paymentRow (users : List User) (bills : List Bill) (payment : Payment) : Payload :=
  [("payment_id", PyVal.int payment.payment_id),
   ("user_id", pyOfOptInt payment.user_id),
   ("user_name", PyVal.str (match relUser users payment.user_id with
      | some u => u.name
      | Option.none => "Unknown User")),
   ("bill_id", pyOfOptInt payment.bill_id),
   ("bill_item_name", (match relBill bills payment.bill_id with
      | some bill => PyVal.str bill.item_name
      | Option.none => PyVal.none)),
   ("amount", PyVal.str (toString payment.amount)),
   ("payment_method", pyOfOptStr payment.payment_method),
   ("payment_date", PyVal.str (toString payment.payment_date)),
   ("status", pyOfOptStr payment.status),
   ("slip_path", pyOfOptStr payment.slip_path)]

/-- `GET /payments` (`manage_payments`, GET branch): optionally filtered by
the user_id query argument when one is supplied. -/
def manage_payments_get (db : DB) (user_id : Option Int) : List Payload :=
  let payments :=
    match user_id with
    | some uid => db.payments.filter (fun (p : Payment) => p.user_id == some uid)
    | Option.none => db.payments
  payments.map (paymentRow db.users db.bills)

/-- Loop body of the `GET /documents` branch of `manage_documents`. -/
def documentRow (users : List User) (doc : Document) : Payload :=
  [("document_id", PyVal.int doc.document_id),
   ("document_name", PyVal.str doc.document_name),
   ("file_path", PyVal.str doc.file_path),
   ("uploaded_by_user_id", pyOfOptInt doc.uploaded_by_user_id),
   ("uploaded_by_user_name", PyVal.str (match relUser users doc.uploaded_by_user_id with
      | some u => u.name
      | Option.none => "Unknown User")),
   ("upload_date", PyVal.str (toString doc.upload_date)),
   ("category", pyOfOptStr doc.category)]

/-- `GET /documents` (`manage_documents`, GET branch). -/
def manage_documents_get (db : DB) : List Payload :=
  db.documents.map (documentRow db.users)

/-- Loop body of the `GET /security-visitors` branch of
`manage_security_visitors`. -/
def visitorRow (users : List User) (visitor : SecurityVisitor) : Payload :=
  [("visitor_id", PyVal.int visitor.visitor_id),
   ("user_id", pyOfOptInt visitor.user_id),
   ("user_name", PyVal.str (match relUser users visitor.user_id with
      | some u => u.name
      | Option.none => "Unknown User")),
   ("name", PyVal.str visitor.name),
   ("phone", pyOfOptStr visitor.phone),
   ("visit_date", PyVal.str (toString visitor.visit_date)),
   ("visit_time", PyVal.str (toString visitor.visit_time)),
   ("purpose", pyOfOptStr visitor.purpose)]

/-- `GET /security-visitors` (`manage_security_visitors`, GET branch). -/
def manage_security_visitors_get (db : DB) : List Payload :=
  db.security_visitors.map (visitorRow db.users)

/-- Loop body of the `GET /security-incidents` branch of
`manage_security_incidents`. -/
def incidentRow (users : List User) (inc : SecurityIncident) : Payload :=
  [("incident_id", PyVal.int inc.incident_id),
   ("user_id", pyOfOptInt inc.user_id),
   ("user_name", PyVal.str (match relUser users inc.user_id with
      | some u => u.name
      | Option.none => "Unknown User")),
   ("description", PyVal.str inc.description),
   ("reported_date", PyVal.str (toString inc.reported_date)),
   ("evidence_paths", pyOfOptStr inc.evidence_paths)]

/-- `GET /security-incidents` (`manage_security_incidents`, GET branch). -/
def manage_security_incidents_get (db : DB) : List Payload :=
  db.security_incidents.map (incidentRow db.users)

/-! ### Concrete fixtures used by counterexamples and witnesses -/

def exUser : User := ⟨1, "Ann", some "A"⟩

def exAnn : Announcement := ⟨1, "t", "c", 1, some 1, Option.none, "#666", "#eee"⟩

def exReq : RepairRequest := ⟨1, some 1, "leak", some "plumbing", "pipe", 1, "pending", Option.none⟩

def exBk : BookingRequest := ⟨1, some 1, "hall", 1, 2, 3, Option.none, Option.none, "pending"⟩

def exBill : Bill := ⟨1, "water", 100, 5, "all", some 1, "unpaid"⟩

def exPay : Payment := ⟨1, some 1, some 1, 100, Option.none, 6, some "pending", Option.none⟩

def exMsg : ChatMessage := ⟨1, some 1, "hi", 10, "general_chat"⟩

def exVote : VotingResult := ⟨1, 1, 1, 1⟩

def exDB : DB :=
  ⟨100, [exUser], [exAnn], [exReq], [exBk], [exBill], [exPay], [], [], [exMsg], [], [],
   [exVote]⟩

/-- A database whose two chat messages committed with timestamps in the
opposite order of their identifiers (possible under concurrent sends:
`datetime.utcnow` is evaluated at object construction, the id at commit). -/
def cexDB : DB :=
  ⟨0, [], [], [], [], [], [], [], [],
   [⟨1, Option.none, "a", 5, "r"⟩, ⟨2, Option.none, "b", 3, "r"⟩],
   [], [], []⟩

/-! ### C1: ordering of the chat history read -/

/-- C1 (counterexample): the claim that the list returned by
`GET /chat-messages` is always sorted by message identifier ascending is
false: the route orders by `timestamp`, and `cexDB` holds a message with a
smaller id but a larger timestamp, so the returned list is not in id order. -/
theorem chat_history_not_id_sorted :
    ¬ (∀ db : DB,
        List.Pairwise (fun m1 m2 => m1.message_id < m2.message_id) (chatHistoryRows db)) :=
  fun h => absurd (h cexDB) (by decide)

/-- C1 (amended): the list returned by `GET /chat-messages` is sorted by
timestamp non-decreasing (the route's actual `order_by`); it coincides with
message-identifier/insertion order only when timestamps are consistent
with identifiers. -/
theorem chat_history_sorted_by_timestamp (db : DB) :
    List.Sorted tsLe (chatHistoryRows db) :=
  List.sorted_insertionSort tsLe db.chat_messages

/-! ### C10: the history read filters nothing -/

/-- C10: `GET /chat-messages` takes no room argument
(`get_chat_messages : DB → List Payload` has no room parameter) and queries
with no filter: the rows it scans are a permutation of the whole
`chat_messages` table, and every stored message of every room appears,
enriched, in the returned list. -/
theorem chat_history_no_room_filter (db : DB) (m : ChatMessage)
    (hm : m ∈ db.chat_messages) :
    (chatHistoryRows db).Perm db.chat_messages ∧
    enrichMessage db.users m ∈ get_chat_messages db := by
  constructor
  · exact List.perm_insertionSort tsLe db.chat_messages
  · exact List.mem_map_of_mem _
      ((List.perm_insertionSort tsLe db.chat_messages).mem_iff.mpr hm)

/-- C10 witness: evaluated at a concrete database containing one message. -/
theorem chat_history_no_room_filter_witness :
    (chatHistoryRows exDB).Perm exDB.chat_messages ∧
    enrichMessage exDB.users exMsg ∈ get_chat_messages exDB :=
  chat_history_no_room_filter exDB exMsg (by decide)

/-! ### C3: send_message validation failure -/

/-- C3: whenever sender_id or content is missing or falsy (empty content,
absent field), `handle_send_message` emits a single `error` event to the
originating connection only, persists nothing, and publishes nothing to the
room — regardless of whether a commit would have succeeded. -/
theorem send_message_validation_local_error (db : DB) (data : SendMessageData)
    (commitOk : Bool)
    (h : truthyInt data.sender_id = false ∨ truthyStr data.content = false) :
    handle_send_message db data commitOk =
      (db, [⟨"error", [("message", PyVal.str "Missing sender_id or content")],
            Target.origin⟩]) := by
  unfold handle_send_message
  rcases h with h | h <;> simp [h]

/-- C3 witness: empty content (the spec's scenario). -/
theorem send_message_validation_local_error_witness :
    handle_send_message exDB ⟨some 1, some "", Option.none⟩ true =
      (exDB, [⟨"error", [("message", PyVal.str "Missing sender_id or content")],
              Target.origin⟩]) :=
  send_message_validation_local_error exDB ⟨some 1, some "", Option.none⟩ true
    (Or.inr (by decide))

/-! ### C4: send_message persistence failure -/

/-- C4: when validation passes but the commit fails, `handle_send_message`
rolls back (state unchanged), emits a single `error` event to the
originating connection only, and publishes no `receive_message` to the room. -/
theorem send_message_commit_fail_local_error (db : DB) (data : SendMessageData)
    (h1 : truthyInt data.sender_id = true) (h2 : truthyStr data.content = true) :
    handle_send_message db data false =
      (db, [⟨"error", [("message", PyVal.str "Failed to send message")],
            Target.origin⟩]) := by
  unfold handle_send_message
  simp [h1, h2]

/-- C4 witness: a valid request whose commit fails. -/
theorem send_message_commit_fail_local_error_witness :
    handle_send_message exDB ⟨some 1, some "hi", Option.none⟩ false =
      (exDB, [⟨"error", [("message", PyVal.str "Failed to send message")],
              Target.origin⟩]) :=
  send_message_commit_fail_local_error exDB ⟨some 1, some "hi", Option.none⟩
    (by decide) (by decide)

/-! ### C9: the handler's default room differs from the column default -/

/-- C9: a valid `send_message` without `room_name` persists the row with
room_name `general_chat` and publishes `receive_message` to the room
`general_chat`; this handler default differs from the `ChatMessages` column
default `general`. -/
theorem send_message_default_room (db : DB) (data : SendMessageData)
    (hr : data.room_name = Option.none)
    (h1 : truthyInt data.sender_id = true) (h2 : truthyStr data.content = true) :
    ∃ m : ChatMessage,
      (handle_send_message db data true).1.chat_messages = db.chat_messages ++ [m] ∧
      m.room_name = "general_chat" ∧
      ((handle_send_message db data true).2.map (fun e => (e.event, e.target)) =
        [("receive_message", Target.room "general_chat")]) ∧
      chatMessages_room_name_default = "general" ∧
      "general_chat" ≠ chatMessages_room_name_default := by
  refine ⟨{ message_id := nextId (db.chat_messages.map (·.message_id))
            sender_id := data.sender_id
            content := data.content.getD ""
            timestamp := db.now
            room_name := "general_chat" }, ?_, rfl, ?_, rfl, by decide⟩
  · unfold handle_send_message
    simp [h1, h2, hr]
  · unfold handle_send_message
    simp [h1, h2, hr]

/-- C9 witness: a concrete valid request omitting room_name. -/
theorem send_message_default_room_witness :
    ∃ m : ChatMessage,
      (handle_send_message exDB ⟨some 1, some "hi", Option.none⟩ true).1.chat_messages =
        exDB.chat_messages ++ [m] ∧
      m.room_name = "general_chat" ∧
      ((handle_send_message exDB ⟨some 1, some "hi", Option.none⟩ true).2.map
          (fun e => (e.event, e.target)) =
        [("receive_message", Target.room "general_chat")]) ∧
      chatMessages_room_name_default = "general" ∧
      "general_chat" ≠ chatMessages_room_name_default :=
  send_message_default_room exDB ⟨some 1, some "hi", Option.none⟩ rfl
    (by decide) (by decide)

/-! ### C8: duplicate vote -/

/-- C8: a vote whose poll_id and user_id match an existing `VotingResults`
row is rejected synchronously with HTTP 409, inserts nothing, and performs
no `socketio.emit` at all. -/
theorem duplicate_vote_rejected (db : DB) (data : VoteData) (commitOk : Bool)
    (r : VotingResult) (hr : r ∈ db.voting_results)
    (hp : r.poll_id = data.poll_id) (hu : r.user_id = data.user_id) :
    manage_voting_results_post db data commitOk = ⟨409, db, []⟩ := by
  have hs : (db.voting_results.find?
      (fun x => x.poll_id == data.poll_id && x.user_id == data.user_id)).isSome := by
    rw [List.find?_isSome]
    exact ⟨r, hr, by simp [hp, hu]⟩
  obtain ⟨v, hv⟩ := Option.isSome_iff_exists.mp hs
  simp [manage_voting_results_post, hv]

/-- C8 witness: voting again in a poll the user already voted in. -/
theorem duplicate_vote_rejected_witness :
    manage_voting_results_post exDB ⟨1, 2, 1⟩ true = ⟨409, exDB, []⟩ :=
  duplicate_vote_rejected exDB ⟨1, 2, 1⟩ true exVote (by decide) rfl rfl

/-! ### C2: no publish without a successful commit -/

lemma commitFail_announcements_post (db : DB) (d : AnnouncementData) :
    (manage_announcements_post db d false).emits = [] ∧
    (manage_announcements_post db d false).db = db := by
  simp [manage_announcements_post, withCommit]

lemma commitFail_announcement_put (db : DB) (i : Int) (d : AnnouncementPutData) :
    (handle_single_announcement_put db i d false).emits = [] ∧
    (handle_single_announcement_put db i d false).db = db := by
  cases h : db.announcements.find? (fun a => a.announcement_id == i) <;>
    simp [handle_single_announcement_put, h, withCommit]

lemma commitFail_announcement_delete (db : DB) (i : Int) :
    (handle_single_announcement_delete db i false).emits = [] ∧
    (handle_single_announcement_delete db i false).db = db := by
  cases h : db.announcements.find? (fun a => a.announcement_id == i) <;>
    simp [handle_single_announcement_delete, h, withCommit]

lemma commitFail_repair_post (db : DB) (d : RepairData) :
    (manage_repair_requests_post db d false).emits = [] ∧
    (manage_repair_requests_post db d false).db = db := by
  simp [manage_repair_requests_post, withCommit]

lemma commitFail_repair_put (db : DB) (i : Int) (d : RepairPutData) :
    (handle_single_repair_request_put db i d false).emits = [] ∧
    (handle_single_repair_request_put db i d false).db = db := by
  cases h : db.repair_requests.find? (fun r => r.request_id == i) <;>
    simp [handle_single_repair_request_put, h, withCommit]

lemma commitFail_booking_post (db : DB) (d : BookingData) :
    (manage_booking_requests_post db d false).emits = [] ∧
    (manage_booking_requests_post db d false).db = db := by
  simp [manage_booking_requests_post, withCommit]

lemma commitFail_booking_put (db : DB) (i : Int) (d : BookingPutData) :
    (handle_single_booking_request_put db i d false).emits = [] ∧
    (handle_single_booking_request_put db i d false).db = db := by
  cases h : db.booking_requests.find? (fun b => b.booking_id == i) <;>
    simp [handle_single_booking_request_put, h, withCommit]

lemma commitFail_bills_post (db : DB) (d : BillData) :
    (manage_bills_post db d false).emits = [] ∧
    (manage_bills_post db d false).db = db := by
  simp [manage_bills_post, withCommit]

lemma commitFail_bill_put (db : DB) (i : Int) (d : BillPutData) :
    (handle_single_bill_put db i d false).emits = [] ∧
    (handle_single_bill_put db i d false).db = db := by
  cases h : db.bills.find? (fun b => b.bill_id == i) <;>
    simp [handle_single_bill_put, h, withCommit]

lemma commitFail_bill_delete (db : DB) (i : Int) :
    (handle_single_bill_delete db i false).emits = [] ∧
    (handle_single_bill_delete db i false).db = db := by
  cases h : db.bills.find? (fun b => b.bill_id == i) <;>
    simp [handle_single_bill_delete, h, withCommit]

lemma commitFail_payments_post (db : DB) (d : PaymentData) :
    (manage_payments_post db d false).emits = [] ∧
    (manage_payments_post db d false).db = db := by
  simp [manage_payments_post, withCommit]

lemma commitFail_approve_payment (db : DB) (i : Int) (d : ApprovePaymentData) :
    (approve_payment db i d false).emits = [] ∧
    (approve_payment db i d false).db = db := by
  cases h : db.payments.find? (fun p => p.payment_id == i) with
  | none => simp [approve_payment, h]
  | some p =>
      simp only [approve_payment, h]
      split <;> simp [withCommit]

lemma commitFail_calendar_post (db : DB) (d : CalendarData) :
    (manage_calendar_events_post db d false).emits = [] ∧
    (manage_calendar_events_post db d false).db = db := by
  simp [manage_calendar_events_post, withCommit]

lemma commitFail_visitors_post (db : DB) (d : VisitorData) :
    (manage_security_visitors_post db d false).emits = [] ∧
    (manage_security_visitors_post db d false).db = db := by
  simp [manage_security_visitors_post, withCommit]

lemma commitFail_incidents_post (db : DB) (d : IncidentData) :
    (manage_security_incidents_post db d false).emits = [] ∧
    (manage_security_incidents_post db d false).db = db := by
  simp [manage_security_incidents_post, withCommit]

lemma commitFail_voting_post (db : DB) (d : VoteData) :
    (manage_voting_results_post db d false).emits = [] ∧
    (manage_voting_results_post db d false).db = db := by
  cases h : db.voting_results.find?
      (fun r => r.poll_id == d.poll_id && r.user_id == d.user_id) <;>
    simp [manage_voting_results_post, h, withCommit]

lemma commitFail_send_message (db : DB) (d : SendMessageData) :
    ((handle_send_message db d false).2.all
      (fun e => e.target == Target.origin) = true) ∧
    ((handle_send_message db d false).2.filter
      (fun e => e.event == "receive_message") = []) ∧
    (handle_send_message db d false).1 = db := by
  cases hc : (!truthyInt d.sender_id || !truthyStr d.content) <;>
    simp [handle_send_message, hc]

/-- C2: if the commit fails (raises/rolls back), no event is emitted by any
modelled state-changing handler and the durable state is unchanged; for the
chat handler the only emission on a failed commit is the local error event
to the originating connection — in particular, no receive_message is ever
observable for an uncommitted message. -/
theorem publish_only_after_commit (db : DB)
    (aD : AnnouncementData) (apD : AnnouncementPutData) (aid : Int)
    (rD : RepairData) (rpD : RepairPutData) (rid : Int)
    (bD : BookingData) (bpD : BookingPutData) (bid : Int)
    (blD : BillData) (blpD : BillPutData) (blid : Int)
    (pD : PaymentData) (appD : ApprovePaymentData) (pid : Int)
    (cD : CalendarData) (vD : VisitorData) (iD : IncidentData)
    (vtD : VoteData) (sD : SendMessageData) :
    ((manage_announcements_post db aD false).emits = [] ∧
      (manage_announcements_post db aD false).db = db) ∧
    ((handle_single_announcement_put db aid apD false).emits = [] ∧
      (handle_single_announcement_put db aid apD false).db = db) ∧
    ((handle_single_announcement_delete db aid false).emits = [] ∧
      (handle_single_announcement_delete db aid false).db = db) ∧
    ((manage_repair_requests_post db rD false).emits = [] ∧
      (manage_repair_requests_post db rD false).db = db) ∧
    ((handle_single_repair_request_put db rid rpD false).emits = [] ∧
      (handle_single_repair_request_put db rid rpD false).db = db) ∧
    ((manage_booking_requests_post db bD false).emits = [] ∧
      (manage_booking_requests_post db bD false).db = db) ∧
    ((handle_single_booking_request_put db bid bpD false).emits = [] ∧
      (handle_single_booking_request_put db bid bpD false).db = db) ∧
    ((manage_bills_post db blD false).emits = [] ∧
      (manage_bills_post db blD false).db = db) ∧
    ((handle_single_bill_put db blid blpD false).emits = [] ∧
      (handle_single_bill_put db blid blpD false).db = db) ∧
    ((handle_single_bill_delete db blid false).emits = [] ∧
      (handle_single_bill_delete db blid false).db = db) ∧
    ((manage_payments_post db pD false).emits = [] ∧
      (manage_payments_post db pD false).db = db) ∧
    ((approve_payment db pid appD false).emits = [] ∧
      (approve_payment db pid appD false).db = db) ∧
    ((manage_calendar_events_post db cD false).emits = [] ∧
      (manage_calendar_events_post db cD false).db = db) ∧
    ((manage_security_visitors_post db vD false).emits = [] ∧
      (manage_security_visitors_post db vD false).db = db) ∧
    ((manage_security_incidents_post db iD false).emits = [] ∧
      (manage_security_incidents_post db iD false).db = db) ∧
    ((manage_voting_results_post db vtD false).emits = [] ∧
      (manage_voting_results_post db vtD false).db = db) ∧
    (((handle_send_message db sD false).2.all
        (fun e => e.target == Target.origin) = true) ∧
      ((handle_send_message db sD false).2.filter
        (fun e => e.event == "receive_message") = []) ∧
      (handle_send_message db sD false).1 = db) :=
  ⟨commitFail_announcements_post db aD,
   commitFail_announcement_put db aid apD,
   commitFail_announcement_delete db aid,
   commitFail_repair_post db rD,
   commitFail_repair_put db rid rpD,
   commitFail_booking_post db bD,
   commitFail_booking_put db bid bpD,
   commitFail_bills_post db blD,
   commitFail_bill_put db blid blpD,
   commitFail_bill_delete db blid,
   commitFail_payments_post db pD,
   commitFail_approve_payment db pid appD,
   commitFail_calendar_post db cD,
   commitFail_visitors_post db vD,
   commitFail_incidents_post db iD,
   commitFail_voting_post db vtD,
   commitFail_send_message db sD⟩

/-! ### C5: event names and delivery targets -/

/-- The observable signature of a handler's emissions: event name and
delivery target of each emit, in order. -/
def emitsSig (r : HandlerResult) : List (String × Target) :=
  r.emits.map (fun e => (e.event, e.target))

/-- C5: every modelled successful mutation publishes exactly one event, with
the name and delivery target of the spec's table: the five staff
notifications to room admins, the two status updates to the affected user's
personal room, and announcement/bill/payment-approval/calendar events as
broadcasts. -/
theorem successful_mutation_event_targets (db : DB)
    (aD : AnnouncementData) (rD : RepairData) (bD : BookingData)
    (blD : BillData) (pD : PaymentData) (cD : CalendarData)
    (vD : VisitorData) (iD : IncidentData)
    (apD : AnnouncementPutData) (aid : Int) (ann : Announcement)
    (ha : db.announcements.find? (fun a => a.announcement_id == aid) = some ann)
    (rpD : RepairPutData) (rid : Int) (req : RepairRequest)
    (hrq : db.repair_requests.find? (fun r => r.request_id == rid) = some req)
    (bpD : BookingPutData) (bid : Int) (bk : BookingRequest)
    (hbk : db.booking_requests.find? (fun b => b.booking_id == bid) = some bk)
    (blpD : BillPutData) (blid : Int) (bill : Bill)
    (hbl : db.bills.find? (fun b => b.bill_id == blid) = some bill)
    (appD : ApprovePaymentData) (pid : Int) (pay : Payment)
    (hpy : db.payments.find? (fun p => p.payment_id == pid) = some pay)
    (hst : (appD.status.getD "paid" == "paid"
            || appD.status.getD "paid" == "rejected") = true) :
    emitsSig (manage_announcements_post db aD true) =
      [("new_announcement", Target.broadcast)] ∧
    emitsSig (handle_single_announcement_put db aid apD true) =
      [("announcement_updated", Target.broadcast)] ∧
    emitsSig (handle_single_announcement_delete db aid true) =
      [("announcement_deleted", Target.broadcast)] ∧
    emitsSig (manage_repair_requests_post db rD true) =
      [("new_repair_request", Target.room "admins")] ∧
    emitsSig (handle_single_repair_request_put db rid rpD true) =
      [("repair_status_updated", Target.room (pyFormatUserRoom req.user_id))] ∧
    emitsSig (manage_booking_requests_post db bD true) =
      [("new_booking_request", Target.room "admins")] ∧
    emitsSig (handle_single_booking_request_put db bid bpD true) =
      [("booking_status_updated", Target.room (pyFormatUserRoom bk.user_id))] ∧
    emitsSig (manage_bills_post db blD true) =
      [("new_bill_created", Target.broadcast)] ∧
    emitsSig (handle_single_bill_put db blid blpD true) =
      [("bill_updated", Target.broadcast)] ∧
    emitsSig (handle_single_bill_delete db blid true) =
      [("bill_deleted", Target.broadcast)] ∧
    emitsSig (manage_payments_post db pD true) =
      [("new_payment_receipt", Target.room "admins")] ∧
    emitsSig (approve_payment db pid appD true) =
      [("payment_approved", Target.broadcast)] ∧
    emitsSig (manage_calendar_events_post db cD true) =
      [("new_calendar_event", Target.broadcast)] ∧
    emitsSig (manage_security_visitors_post db vD true) =
      [("new_visitor_registered", Target.room "admins")] ∧
    emitsSig (manage_security_incidents_post db iD true) =
      [("new_incident_reported", Target.room "admins")] := by
  refine ⟨?_, ?_, ?_, ?_, ?_, ?_, ?_, ?_, ?_, ?_, ?_, ?_, ?_, ?_, ?_⟩
  · simp [emitsSig, manage_announcements_post, withCommit]
  · simp [emitsSig, handle_single_announcement_put, ha, withCommit]
  · simp [emitsSig, handle_single_announcement_delete, ha, withCommit]
  · simp [emitsSig, manage_repair_requests_post, withCommit]
  · simp [emitsSig, handle_single_repair_request_put, hrq, withCommit]
  · simp [emitsSig, manage_booking_requests_post, withCommit]
  · simp [emitsSig, handle_single_booking_request_put, hbk, withCommit]
  · simp [emitsSig, manage_bills_post, withCommit]
  · simp [emitsSig, handle_single_bill_put, hbl, withCommit]
  · simp [emitsSig, handle_single_bill_delete, hbl, withCommit]
  · simp [emitsSig, manage_payments_post, withCommit]
  · simp [emitsSig, approve_payment, hpy, hst, withCommit]
  · simp [emitsSig, manage_calendar_events_post, withCommit]
  · simp [emitsSig, manage_security_visitors_post, withCommit]
  · simp [emitsSig, manage_security_incidents_post, withCommit]

def exAnnData : AnnouncementData := ⟨"t", "c", Option.none, some 1, Option.none⟩

def exAnnPutData : AnnouncementPutData :=
  ⟨some "t2", Option.none, Option.none, Option.none, Option.none⟩

def exRepairData : RepairData := ⟨some 1, "leak", some "plumbing", "pipe", Option.none⟩

def exRepairPutData : RepairPutData :=
  ⟨Option.none, Option.none, Option.none, some "done", Option.none⟩

def exBookingData : BookingData :=
  ⟨some 1, "hall", 1, 2, 3, Option.none, Option.none⟩

def exBookingPutData : BookingPutData :=
  ⟨Option.none, Option.none, Option.none, Option.none, Option.none, Option.none,
   some "approved"⟩

def exBillData : BillData := ⟨"water", 100, 5, Option.none, some 1⟩

def exBillPutData : BillPutData :=
  ⟨Option.none, Option.none, Option.none, Option.none, some "paid"⟩

def exPaymentData : PaymentData :=
  ⟨some 1, some 1, 100, Option.none, Option.none, Option.none⟩

def exApproveData : ApprovePaymentData := ⟨some "paid"⟩

def exCalendarData : CalendarData := ⟨"meet", 7, Option.none, Option.none⟩

def exVisitorData : VisitorData := ⟨some 1, "Bob", Option.none, 4, 5, Option.none⟩

def exIncidentData : IncidentData := ⟨some 1, "fire", Option.none⟩

/-- C5 witness: every modelled mutation evaluated on a concrete database in
which each fetched row exists and the approval status is valid. -/
theorem successful_mutation_event_targets_witness :
    emitsSig (manage_announcements_post exDB exAnnData true) =
      [("new_announcement", Target.broadcast)] ∧
    emitsSig (handle_single_announcement_put exDB 1 exAnnPutData true) =
      [("announcement_updated", Target.broadcast)] ∧
    emitsSig (handle_single_announcement_delete exDB 1 true) =
      [("announcement_deleted", Target.broadcast)] ∧
    emitsSig (manage_repair_requests_post exDB exRepairData true) =
      [("new_repair_request", Target.room "admins")] ∧
    emitsSig (handle_single_repair_request_put exDB 1 exRepairPutData true) =
      [("repair_status_updated", Target.room (pyFormatUserRoom exReq.user_id))] ∧
    emitsSig (manage_booking_requests_post exDB exBookingData true) =
      [("new_booking_request", Target.room "admins")] ∧
    emitsSig (handle_single_booking_request_put exDB 1 exBookingPutData true) =
      [("booking_status_updated", Target.room (pyFormatUserRoom exBk.user_id))] ∧
    emitsSig (manage_bills_post exDB exBillData true) =
      [("new_bill_created", Target.broadcast)] ∧
    emitsSig (handle_single_bill_put exDB 1 exBillPutData true) =
      [("bill_updated", Target.broadcast)] ∧
    emitsSig (handle_single_bill_delete exDB 1 true) =
      [("bill_deleted", Target.broadcast)] ∧
    emitsSig (manage_payments_post exDB exPaymentData true) =
      [("new_payment_receipt", Target.room "admins")] ∧
    emitsSig (approve_payment exDB 1 exApproveData true) =
      [("payment_approved", Target.broadcast)] ∧
    emitsSig (manage_calendar_events_post exDB exCalendarData true) =
      [("new_calendar_event", Target.broadcast)] ∧
    emitsSig (manage_security_visitors_post exDB exVisitorData true) =
      [("new_visitor_registered", Target.room "admins")] ∧
    emitsSig (manage_security_incidents_post exDB exIncidentData true) =
      [("new_incident_reported", Target.room "admins")] :=
  successful_mutation_event_targets exDB exAnnData exRepairData exBookingData
    exBillData exPaymentData exCalendarData exVisitorData exIncidentData
    exAnnPutData 1 exAnn (by decide)
    exRepairPutData 1 exReq (by decide)
    exBookingPutData 1 exBk (by decide)
    exBillPutData 1 exBill (by decide)
    exApproveData 1 exPay (by decide)
    (by decide)

/-! ### C6: the avatar fallback chain -/

/-- The claimed avatar fallback rule: stored avatar when available, else the
first character of the sender's name, and a question mark exactly when the
sender cannot be resolved. -/
def avatarFallbackClaim : Prop :=
  ∀ (users : List User) (msg : ChatMessage),
    (∀ u, relUser users msg.sender_id = some u →
      Payload.get (enrichMessage users msg) "sender_avatar" =
        some (match u.avatar with
              | some a => PyVal.str a
              | Option.none => PyVal.str (firstCharUpper u.name))) ∧
    (relUser users msg.sender_id = Option.none →
      Payload.get (enrichMessage users msg) "sender_avatar" =
        some (PyVal.str "?"))

/-- C6 (counterexample): the claimed fallback rule is false.  For a message
whose sender cannot be resolved (empty user table), the enriched row carries
avatar U — the first character of the placeholder name Unknown User — not
the claimed question mark. -/
theorem avatar_fallback_claim_false : ¬ avatarFallbackClaim :=
  fun h => absurd ((h [] exMsg).2 rfl) (by decide)

/-- C6 (amended): the avatar actually resolves as follows, identically on
the history-read path and the send_message publish path: when the sender row
exists the payload carries the stored avatar column verbatim (null when the
column is null — there is no fallback to the sender's name); when the sender
cannot be resolved the name is Unknown User and the avatar is U, the first
character of that placeholder; the question-mark branch is unreachable. -/
theorem avatar_resolution_amended (users : List User) (msg : ChatMessage)
    (db : DB) (data : SendMessageData)
    (h1 : truthyInt data.sender_id = true) (h2 : truthyStr data.content = true) :
    (∀ u, relUser users msg.sender_id = some u →
      Payload.get (enrichMessage users msg) "sender_avatar" =
        some (pyOfOptStr u.avatar) ∧
      Payload.get (enrichMessage users msg) "sender_name" =
        some (PyVal.str u.name)) ∧
    (relUser users msg.sender_id = Option.none →
      Payload.get (enrichMessage users msg) "sender_avatar" =
        some (PyVal.str "U") ∧
      Payload.get (enrichMessage users msg) "sender_name" =
        some (PyVal.str "Unknown User")) ∧
    (Payload.get (enrichMessage users msg) "sender_avatar" =
      some (resolveSenderDisplay (relUser users msg.sender_id)).2) ∧
    ((handle_send_message db data true).2.map
        (fun e => Payload.get e.payload "sender_avatar") =
      [some (resolveSenderDisplay
        (queryGetUser db.users (data.sender_id.getD 0))).2]) := by
  refine ⟨?_, ?_, ?_, ?_⟩
  · intro u hu
    simp [enrichMessage, Payload.get, hu]
  · intro hu
    refine ⟨?_, ?_⟩ <;> (simp [enrichMessage, Payload.get, hu, firstCharUpper]; try decide)
  · cases hu : relUser users msg.sender_id <;>
      simp [enrichMessage, Payload.get, resolveSenderDisplay, hu]
  · unfold handle_send_message
    cases hq : queryGetUser db.users (data.sender_id.getD 0) <;>
      simp [h1, h2, Payload.get, resolveSenderDisplay, hq]

/-- C6 witness: evaluated with one resolved sender with a stored avatar and
a valid send_message request. -/
theorem avatar_resolution_amended_witness :
    (∀ u, relUser exDB.users exMsg.sender_id = some u →
      Payload.get (enrichMessage exDB.users exMsg) "sender_avatar" =
        some (pyOfOptStr u.avatar) ∧
      Payload.get (enrichMessage exDB.users exMsg) "sender_name" =
        some (PyVal.str u.name)) ∧
    (relUser exDB.users exMsg.sender_id = Option.none →
      Payload.get (enrichMessage exDB.users exMsg) "sender_avatar" =
        some (PyVal.str "U") ∧
      Payload.get (enrichMessage exDB.users exMsg) "sender_name" =
        some (PyVal.str "Unknown User")) ∧
    (Payload.get (enrichMessage exDB.users exMsg) "sender_avatar" =
      some (resolveSenderDisplay (relUser exDB.users exMsg.sender_id)).2) ∧
    ((handle_send_message exDB ⟨some 1, some "hi", Option.none⟩ true).2.map
        (fun e => Payload.get e.payload "sender_avatar") =
      [some (resolveSenderDisplay
        (queryGetUser exDB.users ((some (1 : Int)).getD 0))).2]) :=
  avatar_resolution_amended exDB.users exMsg exDB ⟨some 1, some "hi", Option.none⟩
    (by decide) (by decide)

/-! ### C7: placeholder display names on unresolved relationships -/

def exAnn9 : Announcement := ⟨1, "t", "c", 1, some 9, Option.none, "#666", "#eee"⟩

def exReq9 : RepairRequest :=
  ⟨1, some 9, "leak", Option.none, "pipe", 1, "pending", Option.none⟩

def exBk9 : BookingRequest :=
  ⟨1, some 9, "hall", 1, 2, 3, Option.none, Option.none, "pending"⟩

def exBill9 : Bill := ⟨1, "water", 100, 5, "all", some 9, "unpaid"⟩

def exPay9 : Payment :=
  ⟨1, some 9, Option.none, 100, Option.none, 6, some "pending", Option.none⟩

def exDoc9 : Document := ⟨1, "deed", "up/deed.pdf", some 9, 7, Option.none⟩

def exVis9 : SecurityVisitor := ⟨1, some 9, "Bob", Option.none, 4, 5, Option.none⟩

def exInc9 : SecurityIncident := ⟨1, some 9, "fire", 8, Option.none⟩

def exMsg9 : ChatMessage := ⟨1, some 9, "hi", 10, "general_chat"⟩

/-- A database in which every user-referencing row points at user 9, who
does not exist: every display-name relationship is unresolved. -/
def c7DB : DB :=
  ⟨50, [], [exAnn9], [exReq9], [exBk9], [exBill9], [exPay9], [], [exDoc9], [exMsg9],
   [exVis9], [exInc9], []⟩

/-- The claimed placeholder rule, instantiated at the bills read: an
unresolved issued-by relationship would put the literal Unknown User in the
serialized row. -/
def unknownUserPlaceholderClaim : Prop :=
  ∀ (users : List User) (bill : Bill),
    relUser users bill.issued_by_user_id = Option.none →
    Payload.get (billRow users bill) "issued_by_user_name" =
      some (PyVal.str "Unknown User")

/-- C7 (counterexample): the claim is false at the bills read: for a bill
whose issued-by user cannot be resolved, the row returned by GET /bills
carries the literal Unknown — not Unknown User. -/
theorem unknown_user_placeholder_claim_false : ¬ unknownUserPlaceholderClaim :=
  fun h => absurd (h [] exBill9 rfl) (by decide)

/-- C7 (amended): for every published event and every read result whose
payload carries a display name resolved through a user relationship, an
unresolved relationship yields a literal placeholder and the publish/read
still succeeds (the publish still emits exactly one event): Unknown Author
for announcements (publish and read), Unknown User for repair, booking,
payment, visitor and incident publishes and reads, for the document read,
and for the chat publish and history read — except the bills read, whose
issued-by display name falls back to the literal Unknown. -/
theorem unknown_placeholder_amended (db : DB)
    (aD : AnnouncementData) (ha : relUser db.users aD.author_id = Option.none)
    (apD : AnnouncementPutData) (aid : Int) (annF : Announcement)
    (hfa : db.announcements.find? (fun a => a.announcement_id == aid) = some annF)
    (hpa : relUser db.users (updOpt apD.author_id annF.author_id) = Option.none)
    (rD : RepairData) (hr : relUser db.users rD.user_id = Option.none)
    (bD : BookingData) (hb : relUser db.users bD.user_id = Option.none)
    (pD : PaymentData) (hp : relUser db.users pD.user_id = Option.none)
    (vD : VisitorData) (hv : relUser db.users vD.user_id = Option.none)
    (iD : IncidentData) (hi : relUser db.users iD.user_id = Option.none)
    (sD : SendMessageData) (hs1 : truthyInt sD.sender_id = true)
    (hs2 : truthyStr sD.content = true)
    (hsu : queryGetUser db.users (sD.sender_id.getD 0) = Option.none)
    (ann : Announcement) (hga : relUser db.users ann.author_id = Option.none)
    (req : RepairRequest) (hgr : relUser db.users req.user_id = Option.none)
    (bk : BookingRequest) (hgb : relUser db.users bk.user_id = Option.none)
    (bill : Bill) (hgbl : relUser db.users bill.issued_by_user_id = Option.none)
    (pay : Payment) (hgp : relUser db.users pay.user_id = Option.none)
    (doc : Document) (hgd : relUser db.users doc.uploaded_by_user_id = Option.none)
    (vis : SecurityVisitor) (hgv : relUser db.users vis.user_id = Option.none)
    (inc : SecurityIncident) (hgi : relUser db.users inc.user_id = Option.none)
    (msg : ChatMessage) (hgm : relUser db.users msg.sender_id = Option.none) :
    (∃ e, (manage_announcements_post db aD true).emits = [e] ∧
      Payload.get e.payload "author_name" = some (PyVal.str "Unknown Author")) ∧
    (∃ e, (handle_single_announcement_put db aid apD true).emits = [e] ∧
      Payload.get e.payload "author_name" = some (PyVal.str "Unknown Author")) ∧
    (∃ e, (manage_repair_requests_post db rD true).emits = [e] ∧
      Payload.get e.payload "user_name" = some (PyVal.str "Unknown User")) ∧
    (∃ e, (manage_booking_requests_post db bD true).emits = [e] ∧
      Payload.get e.payload "user_name" = some (PyVal.str "Unknown User")) ∧
    (∃ e, (manage_payments_post db pD true).emits = [e] ∧
      Payload.get e.payload "user_name" = some (PyVal.str "Unknown User")) ∧
    (∃ e, (manage_security_visitors_post db vD true).emits = [e] ∧
      Payload.get e.payload "user_name" = some (PyVal.str "Unknown User")) ∧
    (∃ e, (manage_security_incidents_post db iD true).emits = [e] ∧
      Payload.get e.payload "user_name" = some (PyVal.str "Unknown User")) ∧
    ((handle_send_message db sD true).2.map
        (fun e => Payload.get e.payload "sender_name") =
      [some (PyVal.str "Unknown User")]) ∧
    (Payload.get (announcementRow db.users ann) "author_name" =
      some (PyVal.str "Unknown Author")) ∧
    (Payload.get (repairRow db.users req) "user_name" =
      some (PyVal.str "Unknown User")) ∧
    (Payload.get (bookingRow db.users bk) "user_name" =
      some (PyVal.str "Unknown User")) ∧
    (Payload.get (billRow db.users bill) "issued_by_user_name" =
      some (PyVal.str "Unknown")) ∧
    (Payload.get (paymentRow db.users db.bills pay) "user_name" =
      some (PyVal.str "Unknown User")) ∧
    (Payload.get (documentRow db.users doc) "uploaded_by_user_name" =
      some (PyVal.str "Unknown User")) ∧
    (Payload.get (visitorRow db.users vis) "user_name" =
      some (PyVal.str "Unknown User")) ∧
    (Payload.get (incidentRow db.users inc) "user_name" =
      some (PyVal.str "Unknown User")) ∧
    (Payload.get (enrichMessage db.users msg) "sender_name" =
      some (PyVal.str "Unknown User")) := by
  refine ⟨?_, ?_, ?_, ?_, ?_, ?_, ?_, ?_, ?_, ?_, ?_, ?_, ?_, ?_, ?_, ?_, ?_⟩
  · refine ⟨_, rfl, ?_⟩
    simp [manage_announcements_post, withCommit, Payload.get, ha]
  · unfold handle_single_announcement_put
    rw [hfa]
    refine ⟨_, rfl, ?_⟩
    simp [withCommit, Payload.get, hpa]
  · refine ⟨_, rfl, ?_⟩
    simp [manage_repair_requests_post, withCommit, Payload.get, hr]
  · refine ⟨_, rfl, ?_⟩
    simp [manage_booking_requests_post, withCommit, Payload.get, hb]
  · refine ⟨_, rfl, ?_⟩
    simp [manage_payments_post, withCommit, Payload.get, hp]
  · refine ⟨_, rfl, ?_⟩
    simp [manage_security_visitors_post, withCommit, Payload.get, hv]
  · refine ⟨_, rfl, ?_⟩
    simp [manage_security_incidents_post, withCommit, Payload.get, hi]
  · unfold handle_send_message
    simp [hs1, hs2, Payload.get, hsu]
  · simp [announcementRow, Payload.get, hga]
  · simp [repairRow, Payload.get, hgr]
  · simp [bookingRow, Payload.get, hgb]
  · simp [billRow, Payload.get, hgbl]
  · simp [paymentRow, Payload.get, hgp]
  · simp [documentRow, Payload.get, hgd]
  · simp [visitorRow, Payload.get, hgv]
  · simp [incidentRow, Payload.get, hgi]
  · simp [enrichMessage, Payload.get, hgm]

def c7AnnData : AnnouncementData := ⟨"t", "c", Option.none, some 9, Option.none⟩

def c7AnnPutData : AnnouncementPutData :=
  ⟨Option.none, Option.none, Option.none, Option.none, Option.none⟩

def c7RepairData : RepairData := ⟨some 9, "leak", Option.none, "pipe", Option.none⟩

def c7BookingData : BookingData := ⟨some 9, "hall", 1, 2, 3, Option.none, Option.none⟩

def c7PaymentData : PaymentData :=
  ⟨some 9, Option.none, 100, Option.none, Option.none, Option.none⟩

def c7VisitorData : VisitorData := ⟨some 9, "Bob", Option.none, 4, 5, Option.none⟩

def c7IncidentData : IncidentData := ⟨some 9, "fire", Option.none⟩

def c7SendData : SendMessageData := ⟨some 9, some "hi", Option.none⟩

/-- C7 witness: every publish and read path evaluated on the concrete
database whose user-referencing rows all point at the nonexistent user 9. -/
theorem unknown_placeholder_amended_witness :
    (∃ e, (manage_announcements_post c7DB c7AnnData true).emits = [e] ∧
      Payload.get e.payload "author_name" = some (PyVal.str "Unknown Author")) ∧
    (∃ e, (handle_single_announcement_put c7DB 1 c7AnnPutData true).emits = [e] ∧
      Payload.get e.payload "author_name" = some (PyVal.str "Unknown Author")) ∧
    (∃ e, (manage_repair_requests_post c7DB c7RepairData true).emits = [e] ∧
      Payload.get e.payload "user_name" = some (PyVal.str "Unknown User")) ∧
    (∃ e, (manage_booking_requests_post c7DB c7BookingData true).emits = [e] ∧
      Payload.get e.payload "user_name" = some (PyVal.str "Unknown User")) ∧
    (∃ e, (manage_payments_post c7DB c7PaymentData true).emits = [e] ∧
      Payload.get e.payload "user_name" = some (PyVal.str "Unknown User")) ∧
    (∃ e, (manage_security_visitors_post c7DB c7VisitorData true).emits = [e] ∧
      Payload.get e.payload "user_name" = some (PyVal.str "Unknown User")) ∧
    (∃ e, (manage_security_incidents_post c7DB c7IncidentData true).emits = [e] ∧
      Payload.get e.payload "user_name" = some (PyVal.str "Unknown User")) ∧
    ((handle_send_message c7DB c7SendData true).2.map
        (fun e => Payload.get e.payload "sender_name") =
      [some (PyVal.str "Unknown User")]) ∧
    (Payload.get (announcementRow c7DB.users exAnn9) "author_name" =
      some (PyVal.str "Unknown Author")) ∧
    (Payload.get (repairRow c7DB.users exReq9) "user_name" =
      some (PyVal.str "Unknown User")) ∧
    (Payload.get (bookingRow c7DB.users exBk9) "user_name" =
      some (PyVal.str "Unknown User")) ∧
    (Payload.get (billRow c7DB.users exBill9) "issued_by_user_name" =
      some (PyVal.str "Unknown")) ∧
    (Payload.get (paymentRow c7DB.users c7DB.bills exPay9) "user_name" =
      some (PyVal.str "Unknown User")) ∧
    (Payload.get (documentRow c7DB.users exDoc9) "uploaded_by_user_name" =
      some (PyVal.str "Unknown User")) ∧
    (Payload.get (visitorRow c7DB.users exVis9) "user_name" =
      some (PyVal.str "Unknown User")) ∧
    (Payload.get (incidentRow c7DB.users exInc9) "user_name" =
      some (PyVal.str "Unknown User")) ∧
    (Payload.get (enrichMessage c7DB.users exMsg9) "sender_name" =
      some (PyVal.str "Unknown User")) :=
  unknown_placeholder_amended c7DB
    c7AnnData (by decide)
    c7AnnPutData 1 exAnn9 (by decide) (by decide)
    c7RepairData (by decide)
    c7BookingData (by decide)
    c7PaymentData (by decide)
    c7VisitorData (by decide)
    c7IncidentData (by decide)
    c7SendData (by decide) (by decide) (by decide)
    exAnn9 (by decide)
    exReq9 (by decide)
    exBk9 (by decide)
    exBill9 (by decide)
    exPay9 (by decide)
    exDoc9 (by decide)
    exVis9 (by decide)
    exInc9 (by decide)
    exMsg9 (by decide)
